import Mathlib

/-!
Verification development for the Twitter-Bot repository (src/test.py, the
active variant, which the other files in the repository duplicate in part).

Text is modelled as `List Char` (Python strings are sequences of code
points, and `len`, slicing and concatenation coincide with `List.length`,
`List.take` and `++`).  Machine state that the module-level Python globals
hold is gathered into `BotState`; the on-disk JSON log files are modelled
by the two `...FileExists` flags together with the in-memory lists, and a
successful file write sets the corresponding flag.  External collaborators
(the platform client and the language model) are modelled by an
environment `PassEnv` supplying the outcome of each call, and the
`schedule` timer library is modelled per its contract: each installed
entry fires at its time-of-day while the scheduler loop is running.
Sleeping is observable only through the list of Governor waits that a
reply pass returns.
-/

/-- Kind of a scheduled task: even-indexed times get reply tasks, odd-indexed
ones get post tasks (src/test.py lines 472-476). -/
inductive TaskKind
  | reply
  | post
deriving DecidableEq, Repr

/-- One installed schedule job: `schedule.every().day.at(t).do(task)`. -/
structure ScheduleEntry where
  fire_time : List Char
  kind : TaskKind
deriving DecidableEq, Repr

/-- A reply log entry exactly as built at src/test.py lines 246-256. -/
structure ReplyEntry where
  type : List Char
  id : Nat
  author_id : Nat
  author_username : List Char
  original_tweet_text : List Char
  generated_comment : List Char
  keyword : List Char
  url : List Char
  timestamp : List Char
deriving DecidableEq, Repr

/-- A post log entry exactly as built at src/test.py lines 406-413. -/
structure PostEntry where
  type : List Char
  id : Nat
  content : List Char
  topic : List Char
  url : List Char
  timestamp : List Char
deriving DecidableEq, Repr

/-- A tweet returned by `client.search_recent_tweets`. -/
structure Tweet where
  id : Nat
  author_id : Nat
  text : List Char
deriving DecidableEq, Repr

/-- Outcome of one `model.generate_content` call: the response text, or any
raised exception (`err`). -/
inductive GenOutcome
  | ok (text : List Char)
  | err
deriving DecidableEq, Repr

/-- Outcome of one `client.create_tweet(in_reply_to_tweet_id=..)` call:
success, `tweepy.TooManyRequests` carrying the optional
`x-rate-limit-reset` header value and the current unix time, or any other
exception. -/
inductive SubmitOutcome
  | ok
  | rateLimited (resetHeader : Option Int) (now : Int)
  | err
deriving DecidableEq, Repr

/-- Outcome of one `client.create_tweet(text=..)` call in the post pass:
success with the new tweet id, a response without data, rate limit, or any
other exception (src/test.py lines 398-427). -/
inductive PostSubmitOutcome
  | ok (new_id : Nat)
  | noData
  | rateLimited (resetHeader : Option Int) (now : Int)
  | err
deriving DecidableEq, Repr

/-- Outcome of one `client.search_recent_tweets` call: the response data
and the author-id-to-username mapping from `response.includes`, a rate
limit, or any other exception.  An empty `tweets` list models a falsy
`response.data`. -/
inductive SearchOutcome
  | ok (tweets : List Tweet) (users : List (Nat × List Char))
  | rateLimited (resetHeader : Option Int) (now : Int)
  | err
deriving DecidableEq, Repr

/-- True when the search call raised (rate limit or other exception). -/
def SearchOutcome.isFailure : SearchOutcome → Bool
  | SearchOutcome.ok _ _ => false
  | SearchOutcome.rateLimited _ _ => true
  | SearchOutcome.err => true

/-- The module-level mutable state of src/test.py: the two in-memory logs
(`replied_log`, `posted_log`), whether each JSON log file exists on disk,
the installed keyword/topic/time lists, the two rotation cursors, the
completed-task counter, the scheduler-running flag, and the `schedule`
library's job list. -/
structure BotState where
  repliedLog : List ReplyEntry
  postedLog : List PostEntry
  replyFileExists : Bool
  postFileExists : Bool
  scheduledKeywords : List (List Char)
  scheduledTopics : List (List Char)
  scheduledTimes : List (List Char)
  replyIndex : Nat
  postIndex : Nat
  taskCounter : Nat
  schedulerRunning : Bool
  jobs : List ScheduleEntry
deriving DecidableEq, Repr

/-- State after module initialization with both log files absent on disk:
`load_data()` then initializes both in-memory logs to empty and creates no
file (src/test.py lines 42-50 and 70-98). -/
def initialBotState : BotState where
  repliedLog := []
  postedLog := []
  replyFileExists := false
  postFileExists := false
  scheduledKeywords := []
  scheduledTopics := []
  scheduledTimes := []
  replyIndex := 0
  postIndex := 0
  taskCounter := 0
  schedulerRunning := false
  jobs := []

/-- Environment supplying the outcome of every external call during a
dispatched task: the search outcome per attempt number, the language-model
and reply-submission outcomes per target tweet id, the post-side outcomes
per attempt number, and the wall-clock timestamp string. -/
structure PassEnv where
  search : Nat → SearchOutcome
  genReply : Nat → GenOutcome
  replySubmit : Nat → SubmitOutcome
  genPost : Nat → GenOutcome
  postSubmit : Nat → PostSubmitOutcome
  timestamp : List Char

/-- Result of a reply pass: the log entries created (`results` in the
source), the sequence of Rate-Limit Governor sleeps performed, the ids for
which a reply submission was attempted, and the final state. -/
structure PassRes where
  results : List ReplyEntry
  waits : List Int
  submits : List Nat
  state : BotState
deriving DecidableEq, Repr

/-- A `fastapi.HTTPException` as raised by the endpoints. -/
structure HttpError where
  status : Nat
  detail : List Char
deriving DecidableEq, Repr

/-- Python `str.strip()`: drop whitespace from both ends. -/
def pyStrip (s : List Char) : List Char :=
  ((s.dropWhile Char.isWhitespace).reverse.dropWhile Char.isWhitespace).reverse

/-- Numeric value of a list of decimal digit characters. -/
def digitsVal (l : List Char) : Nat :=
  l.foldl (fun a c => 10 * a + (c.toNat - 48)) 0

/-- One `%H` or `%M` field of `datetime.strptime(t, "%H:%M")`: one or two
decimal digits whose value is at most `bound`. -/
def timeField (l : List Char) (bound : Nat) : Bool :=
  (l.length == 1 || l.length == 2) && l.all Char.isDigit && decide (digitsVal l ≤ bound)

/-- `datetime.strptime(t, "%H:%M")` succeeds: an hour field (0-23), a
colon, and a minute field (0-59), with nothing else. -/
def valid_time (s : List Char) : Bool :=
  match s.dropWhile (fun c => c != ':') with
  | ':' :: minutePart => timeField (s.takeWhile (fun c => c != ':')) 23 && timeField minutePart 59
  | _ => false

/-- `total_daily_tasks = 6  # 3 replies + 3 posts per day` (src/test.py line 48). -/
def total_daily_tasks : Nat := 6

/-- src/test.py lines 118-123: if the reply log file is missing on disk the
check returns False without consulting the in-memory log; otherwise it
checks whether any in-memory entry has the given id. -/
def already_replied (s : BotState) (tweet_id : Nat) : Bool :=
  if !s.replyFileExists then
    false
  else
    s.repliedLog.any (fun entry => entry.id == tweet_id)

/-- src/test.py lines 100-107, successful-write path: append the entry to
the in-memory log and rewrite the file (which therefore exists afterwards). -/
def save_reply_log (s : BotState) (entry : ReplyEntry) : BotState :=
  { s with repliedLog := s.repliedLog ++ [entry], replyFileExists := true }

/-- src/test.py lines 109-116, successful-write path. -/
def save_post_log (s : BotState) (entry : PostEntry) : BotState :=
  { s with postedLog := s.postedLog ++ [entry], postFileExists := true }

/-- src/test.py lines 545-560, successful path: empty both in-memory logs
and rewrite both files with an empty array (so both files exist). -/
def clear_logs (s : BotState) : BotState :=
  { s with repliedLog := [], postedLog := [],
           replyFileExists := true, postFileExists := true }

/-- src/test.py lines 125-133: when the `x-rate-limit-reset` header is
present, sleep for `max(reset_time - now, 0)` seconds; otherwise do not
sleep.  Returns the list of sleeps performed. -/
def handle_rate_limit (resetHeader : Option Int) (now : Int) : List Int :=
  match resetHeader with
  | some reset_time => [max (reset_time - now) 0]
  | none => []

/-- src/test.py lines 137-202.  On a successful language-model call the
response text is stripped of surrounding whitespace and, when longer than
280 characters, truncated to 277 characters plus an ellipsis.  On any
exception the fixed fallback referencing the keyword and username is
returned. -/
def generate_comment (lm : GenOutcome) (tweet_text username keyword : List Char) : List Char :=
  match lm with
  | GenOutcome.ok text =>
    let comment := pyStrip text
    if 280 < comment.length then comment.take 277 ++ "...".toList else comment
  | GenOutcome.err =>
    "Interesting take on ".toList ++ keyword ++ "! Thanks for sharing @".toList ++ username

/-- src/test.py lines 284-392: same shape as `generate_comment`, with the
fallback referencing the topic. -/
def generate_tweet_content (lm : GenOutcome) (topic : List Char) : List Char :=
  match lm with
  | GenOutcome.ok text =>
    let tweet_content := pyStrip text
    if 280 < tweet_content.length then tweet_content.take 277 ++ "...".toList else tweet_content
  | GenOutcome.err =>
    "been diving deep into ".toList ++ topic ++ " lately... the rabbit hole goes deeper than most people realize".toList

/-- The reply log entry built at src/test.py lines 246-256. -/
def mkReplyEntry (t : Tweet) (username comment keyword timestamp : List Char) : ReplyEntry where
  type := "reply".toList
  id := t.id
  author_id := t.author_id
  author_username := username
  original_tweet_text := t.text
  generated_comment := comment
  keyword := keyword
  url := "https://twitter.com/".toList ++ username ++ "/status/".toList ++ (Nat.repr t.id).toList
  timestamp := timestamp

/-- The inner loop of `search_and_reply` (src/test.py lines 229-268): walk
the searched tweets in order; stop once `max_replies` entries were made;
skip a tweet when `already_replied` holds; otherwise generate a comment
and attempt the reply submission, logging on success, invoking the
Governor and moving on when rate-limited, and moving on after any other
per-item exception. -/
def reply_to_tweets (env : PassEnv) (keyword : List Char) (maxReplies : Nat)
    (users : List (Nat × List Char)) : List Tweet → PassRes → PassRes
  | [], acc => acc
  | t :: rest, acc =>
    if maxReplies ≤ acc.results.length then acc
    else if already_replied acc.state t.id then
      reply_to_tweets env keyword maxReplies users rest acc
    else
      let username := (users.lookup t.author_id).getD ("unknown".toList)
      let comment := generate_comment (env.genReply t.id) t.text username keyword
      let acc1 : PassRes := { acc with submits := acc.submits ++ [t.id] }
      match env.replySubmit t.id with
      | SubmitOutcome.ok =>
        let entry := mkReplyEntry t username comment keyword env.timestamp
        reply_to_tweets env keyword maxReplies users rest
          { acc1 with results := acc1.results ++ [entry],
                      state := save_reply_log acc1.state entry }
      | SubmitOutcome.rateLimited hdr now =>
        reply_to_tweets env keyword maxReplies users rest
          { acc1 with waits := acc1.waits ++ handle_rate_limit hdr now }
      | SubmitOutcome.err =>
        reply_to_tweets env keyword maxReplies users rest acc1

/-- Prefix the recorded Governor waits of a pass result. -/
def prependWaits (w : List Int) (r : PassRes) : PassRes :=
  { r with waits := w ++ r.waits }

/-- The attempt loop of `search_and_reply` (src/test.py lines 213-278):
`i` is the attempt number and the second argument the remaining attempts
(3 at the start).  A search that returns ends the loop within that
attempt: falsy data yields zero results, otherwise the tweets are
processed.  A rate-limited search invokes the Governor and retries; any
other search exception retries after a plain delay.  When the attempts
are exhausted the accumulated (empty) results are returned. -/
def attempt_loop (env : PassEnv) (keyword : List Char) (maxReplies : Nat)
    (s : BotState) : Nat → Nat → PassRes
  | _, 0 => { results := [], waits := [], submits := [], state := s }
  | i, r + 1 =>
    match env.search i with
    | SearchOutcome.ok tweets users =>
      if tweets.isEmpty then { results := [], waits := [], submits := [], state := s }
      else reply_to_tweets env keyword maxReplies users tweets
        { results := [], waits := [], submits := [], state := s }
    | SearchOutcome.rateLimited hdr now =>
      prependWaits (handle_rate_limit hdr now) (attempt_loop env keyword maxReplies s (i + 1) r)
    | SearchOutcome.err =>
      attempt_loop env keyword maxReplies s (i + 1) r

/-- src/test.py lines 204-280: use only the first keyword; with no
keywords do nothing; otherwise run the attempt loop with 3 attempts. -/
def search_and_reply (env : PassEnv) (keywords : List (List Char)) (maxReplies : Nat)
    (s : BotState) : PassRes :=
  match keywords with
  | [] => { results := [], waits := [], submits := [], state := s }
  | keyword :: _ => attempt_loop env keyword maxReplies s 0 3

/-- The post log entry built at src/test.py lines 406-413. -/
def mkPostEntry (new_id : Nat) (content topic timestamp : List Char) : PostEntry where
  type := "post".toList
  id := new_id
  content := content
  topic := topic
  url := "https://twitter.com/user/status/".toList ++ (Nat.repr new_id).toList
  timestamp := timestamp

/-- The attempt loop of `post_tweet` (src/test.py lines 398-427): generate
content, submit; on success log the entry and return it; on a data-less
response, a rate limit (after a Governor wait) or any other exception move
to the next attempt. -/
def post_tweet_go (env : PassEnv) (topic : List Char) (s : BotState) :
    Nat → Nat → List PostEntry × BotState
  | _, 0 => ([], s)
  | i, r + 1 =>
    let tweet_content := generate_tweet_content (env.genPost i) topic
    match env.postSubmit i with
    | PostSubmitOutcome.ok new_id =>
      let entry := mkPostEntry new_id tweet_content topic env.timestamp
      ([entry], save_post_log s entry)
    | PostSubmitOutcome.noData => post_tweet_go env topic s (i + 1) r
    | PostSubmitOutcome.rateLimited _ _ => post_tweet_go env topic s (i + 1) r
    | PostSubmitOutcome.err => post_tweet_go env topic s (i + 1) r

/-- src/test.py lines 394-429: post a single tweet with up to 3 attempts. -/
def post_tweet (env : PassEnv) (topic : List Char) (s : BotState) :
    List PostEntry × BotState :=
  post_tweet_go env topic s 0 3

/-- The loop of `post_multiple_tweets` (src/test.py lines 431-444): one
`post_tweet` per topic until `max_posts` topics were attempted. -/
def post_multiple_go (env : PassEnv) (maxPosts : Nat) :
    List (List Char) → Nat → List PostEntry × BotState → List PostEntry × BotState
  | [], _, acc => acc
  | topic :: rest, count, (res, s) =>
    if maxPosts ≤ count then (res, s)
    else
      let r2 := post_tweet env topic s
      post_multiple_go env maxPosts rest (count + 1) (res ++ r2.1, r2.2)

/-- src/test.py lines 431-444. -/
def post_multiple_tweets (env : PassEnv) (topics : List (List Char)) (maxPosts : Nat)
    (s : BotState) : List PostEntry × BotState :=
  post_multiple_go env maxPosts topics 0 ([], s)

/-- src/test.py lines 472-476: alternate reply and post jobs over the
requested times, even indices getting reply tasks. -/
def schedule_jobs (times : List (List Char)) : List ScheduleEntry :=
  times.enum.map (fun p =>
    { fire_time := p.2, kind := if p.1 % 2 == 0 then TaskKind.reply else TaskKind.post })

/-- The state mutations `schedule_tasks` performs before validating the
times (src/test.py lines 452-462): clear the existing jobs
(`schedule.clear()`), clear both logs (`clear_logs()`), store the
keyword/topic/time lists and reset the task counter.  Note that the
reply/post cursors are not touched. -/
def install_base (keywords topics times : List (List Char)) (s : BotState) : BotState :=
  { clear_logs { s with jobs := [] } with
    scheduledKeywords := keywords, scheduledTopics := topics,
    scheduledTimes := times, taskCounter := 0 }

/-- src/test.py lines 448-489, in source order: clear the existing jobs,
clear both logs, store the keyword/topic/time lists, reset the task
counter, and only then validate the time strings - an invalid time raises
a 400 after those mutations.  On the valid path the jobs are installed and
the scheduler (thread) is running afterwards whether or not it already
was. -/
def schedule_tasks (keywords topics times : List (List Char)) (s : BotState) :
    Option HttpError × BotState :=
  if times.all valid_time then
    (none, { install_base keywords topics times s with
             jobs := schedule_jobs times, schedulerRunning := true })
  else
    (some { status := 400, detail := "Times must be in HH:MM format (24-hour clock).".toList },
     install_base keywords topics times s)

/-- The `/schedule` endpoint, src/test.py lines 599-614: reject empty
keyword, topic or time lists and fewer than `total_daily_tasks` times
before touching any state, then delegate to `schedule_tasks`. -/
def schedule_bot (keywords topics times : List (List Char)) (s : BotState) :
    Option HttpError × BotState :=
  if keywords.isEmpty || topics.isEmpty || times.isEmpty then
    (some { status := 400, detail := "Keywords, topics, and times are required.".toList }, s)
  else if times.length < total_daily_tasks then
    (some { status := 400,
            detail := "At least 6 times are required for 6 tasks (3 replies + 3 posts).".toList }, s)
  else
    schedule_tasks keywords topics times s

/-- The keyword a reply dispatch selects (src/test.py line 498):
`scheduled_keywords[reply_index % len(scheduled_keywords)]`. -/
def reply_keyword_used (s : BotState) : List Char :=
  s.scheduledKeywords.getD (s.replyIndex % s.scheduledKeywords.length) []

/-- The quota check shared by both scheduled tasks (src/test.py lines
508-514 and 535-541): when the task counter has reached
`total_daily_tasks`, clear all jobs and stop the scheduler. -/
def stop_if_quota (s2 : BotState) : BotState :=
  if total_daily_tasks ≤ s2.taskCounter then
    { s2 with jobs := [], schedulerRunning := false }
  else s2

/-- src/test.py lines 491-516: with no keywords do nothing; otherwise run
a reply pass on the selected keyword (any exception is caught), advance
the reply cursor, increment the task counter, and when the counter has
reached `total_daily_tasks` clear all jobs and stop the scheduler. -/
def scheduled_reply_task (env : PassEnv) (s : BotState) : BotState :=
  match s.scheduledKeywords with
  | [] => s
  | _ :: _ =>
    stop_if_quota
      { (search_and_reply env [reply_keyword_used s] 3 s).state with
        replyIndex := (search_and_reply env [reply_keyword_used s] 3 s).state.replyIndex + 1,
        taskCounter := (search_and_reply env [reply_keyword_used s] 3 s).state.taskCounter + 1 }

/-- The topic a post dispatch selects (src/test.py line 525). -/
def post_topic_used (s : BotState) : List Char :=
  s.scheduledTopics.getD (s.postIndex % s.scheduledTopics.length) []

/-- src/test.py lines 518-543: the post-side counterpart. -/
def scheduled_post_task (env : PassEnv) (s : BotState) : BotState :=
  match s.scheduledTopics with
  | [] => s
  | _ :: _ =>
    stop_if_quota
      { (post_multiple_tweets env [post_topic_used s] 1 s).2 with
        postIndex := (post_multiple_tweets env [post_topic_used s] 1 s).2.postIndex + 1,
        taskCounter := (post_multiple_tweets env [post_topic_used s] 1 s).2.taskCounter + 1 }

/-- One task dispatch of the given kind. -/
def dispatch_task : TaskKind → PassEnv → BotState → BotState
  | TaskKind.reply, env, s => scheduled_reply_task env s
  | TaskKind.post, env, s => scheduled_post_task env s

/-- One installed entry firing.  Modelled from the spec for the external
`schedule` library: per the Scheduler contract a tick is a no-op when
`running` is false, and otherwise dispatches the entry's task. -/
def fire (env : PassEnv) (s : BotState) (j : ScheduleEntry) : BotState :=
  if s.schedulerRunning then dispatch_task j.kind env s else s

/-- One evaluation of the scheduler loop body at a wall-clock minute
(src/test.py lines 562-574 with the `schedule` library modelled from the
spec): while the running flag is set, every job whose time-of-day matches
the current minute fires; when the flag is cleared the loop body does
nothing. -/
def run_tick (now : List Char) (env : PassEnv) (s : BotState) : BotState :=
  if s.schedulerRunning then
    (s.jobs.filter (fun j => j.fire_time == now)).foldl (fun st j => fire env st j) s
  else s

/-- Iterate the scheduler over a stream of wall-clock minutes and call
environments. -/
def run_ticks (ticks : Nat → List Char × PassEnv) : Nat → BotState → BotState
  | 0, s => s
  | n + 1, s => run_ticks ticks n (run_tick (ticks n).1 (ticks n).2 s)

/-- Iterate `n` consecutive reply-task dispatches, the k-th using
environment `envs k`. -/
def reply_dispatches (envs : Nat → PassEnv) : Nat → BotState → BotState
  | 0, s => s
  | n + 1, s => scheduled_reply_task (envs n) (reply_dispatches envs n s)

/-- A sample reply log entry with the given target id, used for concrete
scenarios. -/
def sampleReplyEntry (n : Nat) : ReplyEntry where
  type := "reply".toList
  id := n
  author_id := 1
  author_username := "alice".toList
  original_tweet_text := "hello".toList
  generated_comment := "nice".toList
  keyword := "ai".toList
  url := "u".toList
  timestamp := "t".toList

/-- An environment in which every external call raises a generic error. -/
def envErr : PassEnv where
  search := fun _ => SearchOutcome.err
  genReply := fun _ => GenOutcome.err
  replySubmit := fun _ => SubmitOutcome.err
  genPost := fun _ => GenOutcome.err
  postSubmit := fun _ => PostSubmitOutcome.err
  timestamp := "ts".toList

/-- An environment whose search finds exactly tweet 1 by author 1 and in
which generation and submission succeed. -/
def envHit : PassEnv where
  search := fun _ => SearchOutcome.ok [{ id := 1, author_id := 1, text := "hi".toList }]
    [(1, "alice".toList)]
  genReply := fun _ => GenOutcome.ok "yo".toList
  replySubmit := fun _ => SubmitOutcome.ok
  genPost := fun _ => GenOutcome.err
  postSubmit := fun _ => PostSubmitOutcome.err
  timestamp := "ts".toList

/-- A state whose in-memory reply log already records tweet 1 while the
reply log file is absent on disk. -/
def dupState : BotState :=
  { initialBotState with repliedLog := [sampleReplyEntry 1], replyFileExists := false }

/-- A state whose in-memory reply log records tweet 1 with the reply log
file present on disk. -/
def supState : BotState :=
  { initialBotState with repliedLog := [sampleReplyEntry 1], replyFileExists := true }

/-- A state whose in-memory reply log records tweet 7 while the reply log
file is absent on disk. -/
def fileMissingState : BotState :=
  { initialBotState with repliedLog := [sampleReplyEntry 7], replyFileExists := false }

/-- A state with a pre-existing schedule and a non-empty Action Log. -/
def preState : BotState :=
  { initialBotState with
      repliedLog := [sampleReplyEntry 5]
      replyFileExists := true
      scheduledKeywords := ["old".toList]
      jobs := [{ fire_time := "09:00".toList, kind := TaskKind.reply }]
      schedulerRunning := true }

/-- Six schedule times of which the last is not a valid time-of-day. -/
def badTimes : List (List Char) :=
  ["01:00", "02:00", "03:00", "04:00", "05:00", "99:99"].map String.toList

/-- Six valid schedule times. -/
def goodTimes : List (List Char) :=
  ["01:00", "02:00", "03:00", "04:00", "05:00", "06:00"].map String.toList

/-- A state left behind by an earlier schedule: both cursors are non-zero. -/
def cursorState : BotState :=
  { initialBotState with replyIndex := 3, postIndex := 2 }

/-- State right after the first successful install of keywords `a, b` on a
fresh process. -/
def rotState0 : BotState :=
  (schedule_bot ["a".toList, "b".toList] ["t".toList] goodTimes initialBotState).2

/-- `rotState0` after one reply dispatch (all external calls failing). -/
def rotState1 : BotState := scheduled_reply_task envErr rotState0

/-- `rotState1` after a second successful install of the same keywords. -/
def rotState2 : BotState :=
  (schedule_bot ["a".toList, "b".toList] ["t".toList] goodTimes rotState1).2

/-- A running state with non-empty lists whose counter is one short of the
quota. -/
def quotaState : BotState :=
  { initialBotState with
      scheduledKeywords := ["a".toList]
      scheduledTopics := ["b".toList]
      taskCounter := 5
      schedulerRunning := true
      jobs := [{ fire_time := "01:00".toList, kind := TaskKind.reply }] }

/-- Two states agree on every scheduling-related field (a task pass may
only touch the logs and the file flags). -/
def SchedEq (a b : BotState) : Prop :=
  a.scheduledKeywords = b.scheduledKeywords ∧ a.scheduledTopics = b.scheduledTopics
  ∧ a.scheduledTimes = b.scheduledTimes ∧ a.replyIndex = b.replyIndex
  ∧ a.postIndex = b.postIndex ∧ a.taskCounter = b.taskCounter
  ∧ a.schedulerRunning = b.schedulerRunning ∧ a.jobs = b.jobs

theorem schedEq_refl (s : BotState) : SchedEq s s :=
  ⟨rfl, rfl, rfl, rfl, rfl, rfl, rfl, rfl⟩

theorem schedEq_trans {a b c : BotState} (h1 : SchedEq a b) (h2 : SchedEq b c) : SchedEq a c :=
  ⟨h1.1.trans h2.1, h1.2.1.trans h2.2.1, h1.2.2.1.trans h2.2.2.1,
   h1.2.2.2.1.trans h2.2.2.2.1, h1.2.2.2.2.1.trans h2.2.2.2.2.1,
   h1.2.2.2.2.2.1.trans h2.2.2.2.2.2.1, h1.2.2.2.2.2.2.1.trans h2.2.2.2.2.2.2.1,
   h1.2.2.2.2.2.2.2.trans h2.2.2.2.2.2.2.2⟩

theorem save_reply_log_schedEq (s : BotState) (e : ReplyEntry) :
    SchedEq (save_reply_log s e) s :=
  ⟨rfl, rfl, rfl, rfl, rfl, rfl, rfl, rfl⟩

theorem save_post_log_schedEq (s : BotState) (e : PostEntry) :
    SchedEq (save_post_log s e) s :=
  ⟨rfl, rfl, rfl, rfl, rfl, rfl, rfl, rfl⟩

theorem reply_to_tweets_schedEq (env : PassEnv) (kw : List Char) (maxR : Nat)
    (users : List (Nat × List Char)) :
    ∀ (tweets : List Tweet) (acc : PassRes),
      SchedEq (reply_to_tweets env kw maxR users tweets acc).state acc.state := by
  intro tweets
  induction tweets with
  | nil => intro acc; rw [reply_to_tweets]; exact schedEq_refl _
  | cons t rest ih =>
    intro acc
    rw [reply_to_tweets]
    split
    · exact schedEq_refl _
    · split
      · exact ih acc
      · cases h : env.replySubmit t.id with
        | ok => exact schedEq_trans (ih _) (save_reply_log_schedEq _ _)
        | rateLimited hdr now => exact ih _
        | err => exact ih _

theorem attempt_loop_schedEq (env : PassEnv) (kw : List Char) (maxR : Nat) (s : BotState) :
    ∀ (fuel i : Nat), SchedEq (attempt_loop env kw maxR s i fuel).state s := by
  intro fuel
  induction fuel with
  | zero => intro i; rw [attempt_loop]; exact schedEq_refl _
  | succ r ih =>
    intro i
    rw [attempt_loop]
    split
    next tweets users heq =>
      split
      · exact schedEq_refl _
      · exact reply_to_tweets_schedEq env kw maxR users tweets _
    next hdr now heq => exact ih (i + 1)
    next heq => exact ih (i + 1)

theorem search_and_reply_schedEq (env : PassEnv) (ks : List (List Char)) (maxR : Nat)
    (s : BotState) : SchedEq (search_and_reply env ks maxR s).state s := by
  cases ks with
  | nil => rw [search_and_reply]; exact schedEq_refl _
  | cons k rest => rw [search_and_reply]; exact attempt_loop_schedEq env k maxR s 3 0

theorem post_tweet_go_schedEq (env : PassEnv) (topic : List Char) (s : BotState) :
    ∀ (fuel i : Nat), SchedEq (post_tweet_go env topic s i fuel).2 s := by
  intro fuel
  induction fuel with
  | zero => intro i; rw [post_tweet_go]; exact schedEq_refl _
  | succ r ih =>
    intro i
    rw [post_tweet_go]
    cases env.postSubmit i with
    | ok new_id => exact save_post_log_schedEq _ _
    | noData => exact ih (i + 1)
    | rateLimited hdr now => exact ih (i + 1)
    | err => exact ih (i + 1)

theorem post_multiple_go_schedEq (env : PassEnv) (maxPosts : Nat) :
    ∀ (topics : List (List Char)) (count : Nat) (res : List PostEntry) (s : BotState),
      SchedEq (post_multiple_go env maxPosts topics count (res, s)).2 s := by
  intro topics
  induction topics with
  | nil => intro count res s; rw [post_multiple_go]; exact schedEq_refl _
  | cons topic rest ih =>
    intro count res s
    rw [post_multiple_go]
    split
    · exact schedEq_refl _
    · exact schedEq_trans (ih _ _ _) (schedEq_trans (post_tweet_go_schedEq env topic s 3 0) (schedEq_refl _))

theorem reply_to_tweets_no_dup (env : PassEnv) (kw : List Char) (maxR : Nat)
    (users : List (Nat × List Char)) (tid : Nat) :
    ∀ (tweets : List Tweet) (acc : PassRes),
      acc.state.replyFileExists = true →
      acc.state.repliedLog.any (fun e => e.id == tid) = true →
      tid ∉ acc.submits →
      (∀ e ∈ acc.results, e.id ≠ tid) →
      tid ∉ (reply_to_tweets env kw maxR users tweets acc).submits
      ∧ (reply_to_tweets env kw maxR users tweets acc).state.repliedLog.filter
          (fun e => e.id == tid)
        = acc.state.repliedLog.filter (fun e => e.id == tid)
      ∧ ∀ e ∈ (reply_to_tweets env kw maxR users tweets acc).results, e.id ≠ tid := by
  intro tweets
  induction tweets with
  | nil =>
    intro acc hfile hmem hsub hres
    rw [reply_to_tweets]
    exact ⟨hsub, rfl, hres⟩
  | cons t rest ih =>
    intro acc hfile hmem hsub hres
    rw [reply_to_tweets]
    split
    · exact ⟨hsub, rfl, hres⟩
    · split
      · exact ih acc hfile hmem hsub hres
      next hnotrep =>
        have htid : t.id ≠ tid := by
          intro h
          apply hnotrep
          rw [h]
          unfold already_replied
          rw [hfile]
          simpa using hmem
        have hetid : ∀ username comment ts,
            (mkReplyEntry t username comment kw ts).id ≠ tid := fun _ _ _ => htid
        cases hsubmit : env.replySubmit t.id with
        | ok =>
          have h := ih
            { acc with
                submits := acc.submits ++ [t.id],
                results := acc.results ++
                  [mkReplyEntry t ((users.lookup t.author_id).getD ("unknown".toList))
                    (generate_comment (env.genReply t.id) t.text
                      ((users.lookup t.author_id).getD ("unknown".toList)) kw) kw env.timestamp],
                state := save_reply_log acc.state
                  (mkReplyEntry t ((users.lookup t.author_id).getD ("unknown".toList))
                    (generate_comment (env.genReply t.id) t.text
                      ((users.lookup t.author_id).getD ("unknown".toList)) kw) kw env.timestamp) }
            (by rfl)
            (by
              show (acc.state.repliedLog ++ [_]).any _ = true
              rw [List.any_append, hmem, Bool.true_or])
            (by
              simp only [List.mem_append, List.mem_singleton]
              rintro (h | h)
              · exact hsub h
              · exact htid h.symm)
            (by
              intro e he
              rcases List.mem_append.mp he with h | h
              · exact hres e h
              · rw [List.mem_singleton.mp h]; exact hetid _ _ _)
          refine ⟨h.1, ?_, h.2.2⟩
          rw [h.2.1]
          show (acc.state.repliedLog ++ [_]).filter _ = _
          rw [List.filter_append]
          simp [mkReplyEntry, htid]
        | rateLimited hdr now =>
          exact ih
            { acc with
                submits := acc.submits ++ [t.id],
                waits := acc.waits ++ handle_rate_limit hdr now }
            hfile hmem
            (by
              simp only [List.mem_append, List.mem_singleton]
              rintro (h | h)
              · exact hsub h
              · exact htid h.symm)
            hres
        | err =>
          exact ih { acc with submits := acc.submits ++ [t.id] }
            hfile hmem
            (by
              simp only [List.mem_append, List.mem_singleton]
              rintro (h | h)
              · exact hsub h
              · exact htid h.symm)
            hres

theorem attempt_loop_no_dup (env : PassEnv) (kw : List Char) (maxR : Nat) (s : BotState)
    (tid : Nat) (hfile : s.replyFileExists = true)
    (hmem : s.repliedLog.any (fun e => e.id == tid) = true) :
    ∀ (fuel i : Nat),
      tid ∉ (attempt_loop env kw maxR s i fuel).submits
      ∧ (attempt_loop env kw maxR s i fuel).state.repliedLog.filter (fun e => e.id == tid)
          = s.repliedLog.filter (fun e => e.id == tid)
      ∧ ∀ e ∈ (attempt_loop env kw maxR s i fuel).results, e.id ≠ tid := by
  intro fuel
  induction fuel with
  | zero =>
    intro i
    rw [attempt_loop]
    exact ⟨by simp, rfl, by simp⟩
  | succ r ih =>
    intro i
    rw [attempt_loop]
    split
    next tweets users heq =>
      split
      · exact ⟨by simp, rfl, by simp⟩
      · exact reply_to_tweets_no_dup env kw maxR users tid tweets _ hfile hmem (by simp) (by simp)
    next hdr now heq =>
      exact ⟨(ih (i + 1)).1, (ih (i + 1)).2.1, (ih (i + 1)).2.2⟩
    next heq => exact ih (i + 1)

/-- Shared shape of the 280-character cap: truncating to 277 characters
plus an ellipsis when over the limit, identity otherwise. -/
theorem truncation_core (c : List Char) :
    (280 < c.length →
      (if 280 < c.length then c.take 277 ++ "...".toList else c) = c.take 277 ++ "...".toList
      ∧ (if 280 < c.length then c.take 277 ++ "...".toList else c).length ≤ 280
      ∧ "...".toList <:+ (if 280 < c.length then c.take 277 ++ "...".toList else c))
    ∧ (c.length ≤ 280 → (if 280 < c.length then c.take 277 ++ "...".toList else c) = c) := by
  constructor
  · intro h
    rw [if_pos h]
    refine ⟨rfl, ?_, ⟨c.take 277, rfl⟩⟩
    have hm : (c.take 277).length ≤ 277 := by
      rw [List.length_take]; exact Nat.min_le_left _ _
    have h3 : ("...".toList).length = 3 := rfl
    rw [List.length_append, h3]
    omega
  · intro h
    rw [if_neg (by omega)]

theorem run_tick_stopped (now : List Char) (env : PassEnv) (s : BotState)
    (h : s.schedulerRunning = false) : run_tick now env s = s := by
  rw [run_tick, if_neg]
  rw [h]
  simp

theorem run_ticks_stopped (ticks : Nat → List Char × PassEnv) (s : BotState)
    (h : s.schedulerRunning = false) :
    ∀ n, run_ticks ticks n s = s := by
  intro n
  induction n with
  | zero => rw [run_ticks]
  | succ m ih =>
    rw [run_ticks, run_tick_stopped _ _ _ h]
    exact ih

theorem stop_if_quota_fields (s2 : BotState) :
    (stop_if_quota s2).taskCounter = s2.taskCounter
    ∧ (stop_if_quota s2).replyIndex = s2.replyIndex
    ∧ (stop_if_quota s2).postIndex = s2.postIndex
    ∧ (stop_if_quota s2).scheduledKeywords = s2.scheduledKeywords
    ∧ (stop_if_quota s2).scheduledTopics = s2.scheduledTopics
    ∧ (total_daily_tasks ≤ s2.taskCounter →
        (stop_if_quota s2).schedulerRunning = false ∧ (stop_if_quota s2).jobs = []) := by
  unfold stop_if_quota
  split
  · exact ⟨rfl, rfl, rfl, rfl, rfl, fun _ => ⟨rfl, rfl⟩⟩
  next hnot => exact ⟨rfl, rfl, rfl, rfl, rfl, fun h => absurd h hnot⟩

theorem scheduled_reply_task_core (env : PassEnv) (s : BotState)
    (hk : s.scheduledKeywords ≠ []) :
    (scheduled_reply_task env s).taskCounter = s.taskCounter + 1
    ∧ (scheduled_reply_task env s).replyIndex = s.replyIndex + 1
    ∧ (scheduled_reply_task env s).scheduledKeywords = s.scheduledKeywords
    ∧ (scheduled_reply_task env s).scheduledTopics = s.scheduledTopics
    ∧ (total_daily_tasks ≤ s.taskCounter + 1 →
        (scheduled_reply_task env s).schedulerRunning = false
        ∧ (scheduled_reply_task env s).jobs = []) := by
  have hpass := search_and_reply_schedEq env [reply_keyword_used s] 3 s
  rcases hpass with ⟨hks, hts, _, hri, _, htc, _, _⟩
  cases hkk : s.scheduledKeywords with
  | nil => exact absurd hkk hk
  | cons k rest =>
    have hunfold : scheduled_reply_task env s
        = stop_if_quota
            { (search_and_reply env [reply_keyword_used s] 3 s).state with
              replyIndex := (search_and_reply env [reply_keyword_used s] 3 s).state.replyIndex + 1,
              taskCounter := (search_and_reply env [reply_keyword_used s] 3 s).state.taskCounter + 1 } := by
      rw [scheduled_reply_task, hkk]
    rw [hunfold]
    obtain ⟨f1, f2, _, f4, f5, f6⟩ := stop_if_quota_fields
      { (search_and_reply env [reply_keyword_used s] 3 s).state with
        replyIndex := (search_and_reply env [reply_keyword_used s] 3 s).state.replyIndex + 1,
        taskCounter := (search_and_reply env [reply_keyword_used s] 3 s).state.taskCounter + 1 }
    refine ⟨by rw [f1]; simp [htc], by rw [f2]; simp [hri],
      by rw [f4]; simp [hks, hkk], by rw [f5]; simp [hts], fun h => f6 (by simpa [htc] using h)⟩

theorem scheduled_post_task_core (env : PassEnv) (s : BotState)
    (ht : s.scheduledTopics ≠ []) :
    (scheduled_post_task env s).taskCounter = s.taskCounter + 1
    ∧ (scheduled_post_task env s).postIndex = s.postIndex + 1
    ∧ (scheduled_post_task env s).scheduledKeywords = s.scheduledKeywords
    ∧ (scheduled_post_task env s).scheduledTopics = s.scheduledTopics
    ∧ (total_daily_tasks ≤ s.taskCounter + 1 →
        (scheduled_post_task env s).schedulerRunning = false
        ∧ (scheduled_post_task env s).jobs = []) := by
  have hpass : SchedEq (post_multiple_tweets env [post_topic_used s] 1 s).2 s :=
    post_multiple_go_schedEq env 1 [post_topic_used s] 0 [] s
  rcases hpass with ⟨hks, hts, _, _, hpi, htc, _, _⟩
  cases hkk : s.scheduledTopics with
  | nil => exact absurd hkk ht
  | cons k rest =>
    have hunfold : scheduled_post_task env s
        = stop_if_quota
            { (post_multiple_tweets env [post_topic_used s] 1 s).2 with
              postIndex := (post_multiple_tweets env [post_topic_used s] 1 s).2.postIndex + 1,
              taskCounter := (post_multiple_tweets env [post_topic_used s] 1 s).2.taskCounter + 1 } := by
      rw [scheduled_post_task, hkk]
    rw [hunfold]
    obtain ⟨f1, _, f3, f4, f5, f6⟩ := stop_if_quota_fields
      { (post_multiple_tweets env [post_topic_used s] 1 s).2 with
        postIndex := (post_multiple_tweets env [post_topic_used s] 1 s).2.postIndex + 1,
        taskCounter := (post_multiple_tweets env [post_topic_used s] 1 s).2.taskCounter + 1 }
    refine ⟨by rw [f1]; simp [htc], by rw [f3]; simp [hpi],
      by rw [f4]; simp [hks], by rw [f5]; simp [hts, hkk], fun h => f6 (by simpa [htc] using h)⟩

theorem attempt_loop_failure_step (env : PassEnv) (kw : List Char) (maxR : Nat)
    (s : BotState) (i r : Nat) (h : (env.search i).isFailure = true) :
    (attempt_loop env kw maxR s i (r + 1)).results = (attempt_loop env kw maxR s (i + 1) r).results
    ∧ (attempt_loop env kw maxR s i (r + 1)).state = (attempt_loop env kw maxR s (i + 1) r).state := by
  rw [attempt_loop]
  cases e : env.search i with
  | ok tweets users =>
    rw [e] at h
    simp [SearchOutcome.isFailure] at h
  | rateLimited hdr now => exact ⟨rfl, rfl⟩
  | err => exact ⟨rfl, rfl⟩

theorem attempt_loop_rate_limited (env : PassEnv) (kw : List Char) (maxR : Nat)
    (s : BotState) (i r : Nat) (hdr : Option Int) (now : Int)
    (h : env.search i = SearchOutcome.rateLimited hdr now) :
    attempt_loop env kw maxR s i (r + 1)
      = prependWaits (handle_rate_limit hdr now) (attempt_loop env kw maxR s (i + 1) r) := by
  rw [attempt_loop, h]

theorem attempt_loop_exhausted (env : PassEnv) (kw : List Char) (maxR : Nat)
    (s : BotState) (i : Nat) :
    attempt_loop env kw maxR s i 0 = { results := [], waits := [], submits := [], state := s } := by
  rw [attempt_loop]

theorem schedule_bot_success_fields (keywords topics times : List (List Char)) (s : BotState)
    (h : (schedule_bot keywords topics times s).1 = none) :
    (schedule_bot keywords topics times s).2.taskCounter = 0
    ∧ (schedule_bot keywords topics times s).2.repliedLog = []
    ∧ (schedule_bot keywords topics times s).2.postedLog = []
    ∧ (schedule_bot keywords topics times s).2.replyIndex = s.replyIndex
    ∧ (schedule_bot keywords topics times s).2.postIndex = s.postIndex
    ∧ (schedule_bot keywords topics times s).2.schedulerRunning = true
    ∧ (schedule_bot keywords topics times s).2.jobs = schedule_jobs times := by
  by_cases c1 : (keywords.isEmpty || topics.isEmpty || times.isEmpty) = true
  · rw [schedule_bot, if_pos c1] at h
    simp at h
  · by_cases c2 : times.length < total_daily_tasks
    · rw [schedule_bot, if_neg c1, if_pos c2] at h
      simp at h
    · by_cases c3 : times.all valid_time = true
      · rw [schedule_bot, if_neg c1, if_neg c2, schedule_tasks, if_pos c3]
        exact ⟨rfl, rfl, rfl, rfl, rfl, rfl, rfl⟩
      · rw [schedule_bot, if_neg c1, if_neg c2, schedule_tasks, if_neg c3] at h
        simp at h

/-- C5 (amended): the 280-unit cap is enforced on the generated string
after the surrounding whitespace has been stripped (src/test.py lines
196-198 and 386-388): when the stripped string exceeds 280 characters the
result is its first 277 characters followed by the ellipsis marker, has
length at most 280 and ends with the marker; otherwise the stripped string
is returned unchanged.  This holds for both the reply and the post
generator. -/
theorem generation_truncation (raw tweet_text username keyword topic : List Char) :
    (280 < (pyStrip raw).length →
      generate_comment (GenOutcome.ok raw) tweet_text username keyword
          = (pyStrip raw).take 277 ++ "...".toList
      ∧ (generate_comment (GenOutcome.ok raw) tweet_text username keyword).length ≤ 280
      ∧ "...".toList <:+ generate_comment (GenOutcome.ok raw) tweet_text username keyword)
    ∧ ((pyStrip raw).length ≤ 280 →
      generate_comment (GenOutcome.ok raw) tweet_text username keyword = pyStrip raw)
    ∧ (280 < (pyStrip raw).length →
      generate_tweet_content (GenOutcome.ok raw) topic = (pyStrip raw).take 277 ++ "...".toList
      ∧ (generate_tweet_content (GenOutcome.ok raw) topic).length ≤ 280
      ∧ "...".toList <:+ generate_tweet_content (GenOutcome.ok raw) topic)
    ∧ ((pyStrip raw).length ≤ 280 →
      generate_tweet_content (GenOutcome.ok raw) topic = pyStrip raw) := by
  have h1 : generate_comment (GenOutcome.ok raw) tweet_text username keyword
      = if 280 < (pyStrip raw).length then (pyStrip raw).take 277 ++ "...".toList
        else pyStrip raw := rfl
  have h2 : generate_tweet_content (GenOutcome.ok raw) topic
      = if 280 < (pyStrip raw).length then (pyStrip raw).take 277 ++ "...".toList
        else pyStrip raw := rfl
  rw [h1, h2]
  obtain ⟨a, b⟩ := truncation_core (pyStrip raw)
  exact ⟨a, b, a, b⟩

set_option maxRecDepth 40000 in
/-- C5 witness: a 300-character response is truncated to its first 277
characters plus the marker. -/
theorem generation_truncation_witness :
    280 < (pyStrip (List.replicate 300 'a')).length
    ∧ generate_comment (GenOutcome.ok (List.replicate 300 'a')) [] [] []
        = (pyStrip (List.replicate 300 'a')).take 277 ++ "...".toList :=
  ⟨by decide,
   ((generation_truncation (List.replicate 300 'a') [] [] [] []).1 (by decide)).1⟩

set_option maxRecDepth 40000 in
/-- C5 counterexample to the claim as stated about the raw generated
string: a raw response of 281 spaces is longer than 280 units yet the
returned text is empty, not the first 277 units plus an ellipsis; and a
raw response of length 2 with a trailing space is at most 280 units yet is
not returned unchanged. -/
theorem generation_truncation_counterexample :
    (280 < (List.replicate 281 ' ').length
      ∧ generate_comment (GenOutcome.ok (List.replicate 281 ' ')) [] [] [] = []
      ∧ generate_comment (GenOutcome.ok (List.replicate 281 ' ')) [] [] []
          ≠ (List.replicate 281 ' ').take 277 ++ "...".toList)
    ∧ (("a ".toList).length ≤ 280
      ∧ generate_comment (GenOutcome.ok ("a ".toList)) [] [] [] ≠ "a ".toList) := by
  decide

/-- C6: on any language-model failure both generators return their fixed
deterministic fallback - the reply generator's referencing the keyword and
the author handle, the post generator's referencing the topic - rather
than propagating the failure. -/
theorem generation_fallback (tweet_text username keyword topic : List Char) :
    generate_comment GenOutcome.err tweet_text username keyword
        = "Interesting take on ".toList ++ keyword ++ "! Thanks for sharing @".toList ++ username
    ∧ generate_tweet_content GenOutcome.err topic
        = "been diving deep into ".toList ++ topic
            ++ " lately... the rabbit hole goes deeper than most people realize".toList :=
  ⟨rfl, rfl⟩

/-- C9: the Governor's wait is the reset timestamp minus the current time,
floored at zero: every sleep performed is non-negative, a reset at or
before now sleeps zero (returns immediately), a future reset sleeps
exactly the difference, and a missing header sleeps not at all. -/
theorem rate_limit_wait_floor (reset_time now : Int) :
    (∀ d ∈ handle_rate_limit (some reset_time) now, 0 ≤ d)
    ∧ (reset_time ≤ now → handle_rate_limit (some reset_time) now = [0])
    ∧ (now ≤ reset_time → handle_rate_limit (some reset_time) now = [reset_time - now])
    ∧ handle_rate_limit none now = [] := by
  refine ⟨?_, ?_, ?_, rfl⟩
  · intro d hd
    have hd' : d = max (reset_time - now) 0 := by simpa [handle_rate_limit] using hd
    rw [hd']
    exact le_max_right _ _
  · intro h
    show [max (reset_time - now) 0] = [0]
    rw [max_eq_right (by omega : reset_time - now ≤ 0)]
  · intro h
    show [max (reset_time - now) 0] = [reset_time - now]
    rw [max_eq_left (by omega : 0 ≤ reset_time - now)]

/-- C9 witness: a reset 5 seconds in the past sleeps zero; a reset 2
seconds in the future sleeps exactly 2. -/
theorem rate_limit_wait_floor_witness :
    handle_rate_limit (some 5) 10 = [0] ∧ handle_rate_limit (some 12) 10 = [2] :=
  ⟨(rate_limit_wait_floor 5 10).2.1 (by decide),
   by rw [(rate_limit_wait_floor 12 10).2.2.1 (by decide)]; decide⟩

/-- C10: whenever the reply log file is absent on disk, `already_replied`
returns false, whatever the in-memory log contains. -/
theorem already_replied_requires_file (s : BotState) (tweet_id : Nat)
    (h : s.replyFileExists = false) :
    already_replied s tweet_id = false := by
  simp [already_replied, h]

/-- C10 witness: a state whose in-memory log records tweet 7 but whose
file is absent still reports tweet 7 as not yet replied to. -/
theorem already_replied_requires_file_witness :
    fileMissingState.replyFileExists = false
    ∧ (fileMissingState.repliedLog.any (fun e => e.id == 7)) = true
    ∧ already_replied fileMissingState 7 = false :=
  ⟨rfl, by decide, already_replied_requires_file fileMissingState 7 rfl⟩

/-- C1 (amended): provided the durable reply log file exists on disk when
the pass runs its duplicate checks, an item already present in the Action
Log as a reply target is never replied to again: the pass attempts no
submission for its id, appends no further log entry with its id, and
returns no result with its id. -/
theorem already_replied_suppression (env : PassEnv) (keywords : List (List Char))
    (maxReplies : Nat) (s : BotState) (tid : Nat)
    (hfile : s.replyFileExists = true)
    (hmem : s.repliedLog.any (fun e => e.id == tid) = true) :
    tid ∉ (search_and_reply env keywords maxReplies s).submits
    ∧ (search_and_reply env keywords maxReplies s).state.repliedLog.filter (fun e => e.id == tid)
        = s.repliedLog.filter (fun e => e.id == tid)
    ∧ ∀ e ∈ (search_and_reply env keywords maxReplies s).results, e.id ≠ tid := by
  cases keywords with
  | nil =>
    rw [search_and_reply]
    exact ⟨by simp, rfl, by simp⟩
  | cons k rest =>
    rw [search_and_reply]
    exact attempt_loop_no_dup env k maxReplies s tid hfile hmem 3 0

/-- C1 witness: with the log file present and tweet 1 already logged, a
pass whose search returns tweet 1 submits nothing for it and leaves its
log entries unchanged. -/
theorem already_replied_suppression_witness :
    (supState.replyFileExists = true
      ∧ (supState.repliedLog.any (fun e => e.id == 1)) = true)
    ∧ (1 ∉ (search_and_reply envHit ["ai".toList] 3 supState).submits
      ∧ (search_and_reply envHit ["ai".toList] 3 supState).state.repliedLog.filter
          (fun e => e.id == 1)
        = supState.repliedLog.filter (fun e => e.id == 1)
      ∧ ∀ e ∈ (search_and_reply envHit ["ai".toList] 3 supState).results, e.id ≠ 1) :=
  ⟨⟨rfl, by decide⟩,
   already_replied_suppression envHit ["ai".toList] 3 supState 1 rfl (by decide)⟩

/-- C1 counterexample to the claim as stated: in a state whose in-memory
Action Log already records a reply to tweet 1 but whose reply log file is
absent on disk, a pass over search results containing tweet 1 submits a
second reply to it and appends a second log entry with its id. -/
theorem reply_pass_duplicate_counterexample :
    (dupState.repliedLog.any (fun e => e.id == 1)) = true
    ∧ 1 ∈ (search_and_reply envHit ["ai".toList] 3 dupState).submits
    ∧ ((search_and_reply envHit ["ai".toList] 3 dupState).state.repliedLog.filter
        (fun e => e.id == 1)).length = 2 := by
  decide

/-- C8: a reply pass retries a failing search up to 3 attempts in total
and, when every attempt fails, aborts without raising, returning zero
results with the state untouched; and a rate-limited first attempt invokes
the Rate-Limit Governor and then retries the search with the remaining
attempts. -/
theorem search_retry_cap (env : PassEnv) (keyword : List Char) (rest : List (List Char))
    (maxReplies : Nat) (s : BotState) :
    ((env.search 0).isFailure = true → (env.search 1).isFailure = true →
      (env.search 2).isFailure = true →
      (search_and_reply env (keyword :: rest) maxReplies s).results = []
      ∧ (search_and_reply env (keyword :: rest) maxReplies s).state = s)
    ∧ (∀ hdr now, env.search 0 = SearchOutcome.rateLimited hdr now →
      search_and_reply env (keyword :: rest) maxReplies s
        = prependWaits (handle_rate_limit hdr now) (attempt_loop env keyword maxReplies s 1 2)) := by
  constructor
  · intro h0 h1 h2
    obtain ⟨r0, s0⟩ := attempt_loop_failure_step env keyword maxReplies s 0 2 h0
    obtain ⟨r1, s1⟩ := attempt_loop_failure_step env keyword maxReplies s 1 1 h1
    obtain ⟨r2, s2⟩ := attempt_loop_failure_step env keyword maxReplies s 2 0 h2
    have hbase := attempt_loop_exhausted env keyword maxReplies s 3
    constructor
    · show (attempt_loop env keyword maxReplies s 0 3).results = []
      rw [r0, r1, r2, hbase]
    · show (attempt_loop env keyword maxReplies s 0 3).state = s
      rw [s0, s1, s2, hbase]
  · intro hdr now h
    show attempt_loop env keyword maxReplies s 0 3
        = prependWaits (handle_rate_limit hdr now) (attempt_loop env keyword maxReplies s 1 2)
    exact attempt_loop_rate_limited env keyword maxReplies s 0 2 hdr now h

/-- C8 witness: with every search attempt failing, the pass over keyword
`ai` from the initial state returns no results and leaves the state
unchanged. -/
theorem search_retry_cap_witness :
    (search_and_reply envErr ["ai".toList] 3 initialBotState).results = []
    ∧ (search_and_reply envErr ["ai".toList] 3 initialBotState).state = initialBotState :=
  (search_retry_cap envErr ("ai".toList) [] 3 initialBotState).1 rfl rfl rfl

/-- C2 (amended): empty keyword, topic or time lists, and fewer than
`total_daily_tasks` times, are rejected with a 400 validation error and no
state change; an invalid schedule time is also rejected with a 400, but
only after the pre-existing jobs have been cleared, both logs emptied, the
keyword/topic/time lists replaced and the task counter reset - the
pre-existing schedule entries and Action Log are not preserved in that
case. -/
theorem schedule_bot_validation (keywords topics times : List (List Char)) (s : BotState) :
    ((keywords.isEmpty || topics.isEmpty || times.isEmpty) = true →
      schedule_bot keywords topics times s
        = (some { status := 400, detail := "Keywords, topics, and times are required.".toList }, s))
    ∧ ((keywords.isEmpty || topics.isEmpty || times.isEmpty) = false →
      times.length < total_daily_tasks →
      schedule_bot keywords topics times s
        = (some { status := 400,
                  detail := "At least 6 times are required for 6 tasks (3 replies + 3 posts).".toList },
          s))
    ∧ ((keywords.isEmpty || topics.isEmpty || times.isEmpty) = false →
      total_daily_tasks ≤ times.length →
      times.all valid_time = false →
      schedule_bot keywords topics times s
        = (some { status := 400, detail := "Times must be in HH:MM format (24-hour clock).".toList },
          { s with repliedLog := [], postedLog := [],
                   replyFileExists := true, postFileExists := true,
                   scheduledKeywords := keywords, scheduledTopics := topics,
                   scheduledTimes := times, taskCounter := 0, jobs := [] })) := by
  refine ⟨?_, ?_, ?_⟩
  · intro h
    rw [schedule_bot, if_pos h]
  · intro h hlen
    rw [schedule_bot, if_neg (by simp [h]), if_pos hlen]
  · intro h hlen hval
    rw [schedule_bot, if_neg (by simp [h]), if_neg (by omega), schedule_tasks,
      if_neg (by simp [hval])]
    rfl

/-- C2 witness: an install with one invalid time out of six is rejected
with the time-format error, leaving exactly the cleared-and-replaced
state. -/
theorem schedule_bot_validation_witness :
    (["a".toList].isEmpty || ["b".toList].isEmpty || badTimes.isEmpty) = false
    ∧ total_daily_tasks ≤ badTimes.length
    ∧ badTimes.all valid_time = false
    ∧ schedule_bot ["a".toList] ["b".toList] badTimes preState
        = (some { status := 400, detail := "Times must be in HH:MM format (24-hour clock).".toList },
          { preState with repliedLog := [], postedLog := [],
                          replyFileExists := true, postFileExists := true,
                          scheduledKeywords := ["a".toList], scheduledTopics := ["b".toList],
                          scheduledTimes := badTimes, taskCounter := 0, jobs := [] }) :=
  ⟨by decide, by decide, by decide,
   (schedule_bot_validation ["a".toList] ["b".toList] badTimes preState).2.2
     (by decide) (by decide) (by decide)⟩

/-- C2 counterexample to the claim as stated: an install request with
non-empty lists, six times of which one is invalid, starting from a state
with a pre-existing schedule and a non-empty Action Log, is rejected - yet
the Action Log and the schedule entries are no longer what they were
before the call. -/
theorem schedule_invalid_time_counterexample :
    ((schedule_bot ["a".toList] ["b".toList] badTimes preState).1).isSome = true
    ∧ (schedule_bot ["a".toList] ["b".toList] badTimes preState).2.repliedLog
        ≠ preState.repliedLog
    ∧ (schedule_bot ["a".toList] ["b".toList] badTimes preState).2.jobs ≠ preState.jobs := by
  decide

/-- C4 (amended): a successful install clears the Action Log, resets the
completed-task counter to 0, installs the jobs and leaves the scheduler
running - but it does not reset the reply and post cursors, which keep
whatever values the previous schedule left behind. -/
theorem install_state_reset (keywords topics times : List (List Char)) (s : BotState)
    (h : (schedule_bot keywords topics times s).1 = none) :
    (schedule_bot keywords topics times s).2.taskCounter = 0
    ∧ (schedule_bot keywords topics times s).2.repliedLog = []
    ∧ (schedule_bot keywords topics times s).2.postedLog = []
    ∧ (schedule_bot keywords topics times s).2.replyIndex = s.replyIndex
    ∧ (schedule_bot keywords topics times s).2.postIndex = s.postIndex
    ∧ (schedule_bot keywords topics times s).2.schedulerRunning = true
    ∧ (schedule_bot keywords topics times s).2.jobs = schedule_jobs times :=
  schedule_bot_success_fields keywords topics times s h

/-- C4 witness: a successful install from a state with cursors 3 and 2
resets the counter to 0 and keeps the cursors at 3 and 2. -/
theorem install_state_reset_witness :
    (schedule_bot ["a".toList] ["b".toList] goodTimes cursorState).1 = none
    ∧ (schedule_bot ["a".toList] ["b".toList] goodTimes cursorState).2.taskCounter = 0
    ∧ (schedule_bot ["a".toList] ["b".toList] goodTimes cursorState).2.replyIndex
        = cursorState.replyIndex :=
  ⟨by decide,
   (install_state_reset ["a".toList] ["b".toList] goodTimes cursorState (by decide)).1,
   (install_state_reset ["a".toList] ["b".toList] goodTimes cursorState (by decide)).2.2.2.1⟩

/-- C4 counterexample to the claim as stated: a successful install from a
state whose reply cursor is 3 and post cursor is 2 leaves both cursors
unchanged instead of resetting them to 0. -/
theorem install_cursor_counterexample :
    (schedule_bot ["a".toList] ["b".toList] goodTimes cursorState).1 = none
    ∧ (schedule_bot ["a".toList] ["b".toList] goodTimes cursorState).2.replyIndex = 3
    ∧ (schedule_bot ["a".toList] ["b".toList] goodTimes cursorState).2.postIndex = 2 := by
  decide

/-- C7 (amended): each reply dispatch uses the keyword at index
`reply cursor mod length` and advances the cursor by one, so the n-th
dispatch from a state with cursor c and keywords ks uses
`ks[(c + n) mod length ks]`; because install does not reset the cursor,
the rotation starts at the inherited cursor value, which is 0 only for the
first install of a process. -/
theorem cursor_rotation (envs : Nat → PassEnv) (s : BotState)
    (hk : s.scheduledKeywords ≠ []) (n : Nat) :
    reply_keyword_used (reply_dispatches envs n s)
        = s.scheduledKeywords.getD ((s.replyIndex + n) % s.scheduledKeywords.length) []
    ∧ (reply_dispatches envs n s).replyIndex = s.replyIndex + n
    ∧ (reply_dispatches envs n s).scheduledKeywords = s.scheduledKeywords := by
  induction n with
  | zero =>
    rw [reply_dispatches]
    exact ⟨by simp [reply_keyword_used], rfl, rfl⟩
  | succ m ih =>
    obtain ⟨ihk, ihi, ihw⟩ := ih
    have hk' : (reply_dispatches envs m s).scheduledKeywords ≠ [] := by rw [ihw]; exact hk
    obtain ⟨c1, c2, c3, c4, c5⟩ := scheduled_reply_task_core (envs m) (reply_dispatches envs m s) hk'
    rw [reply_dispatches]
    refine ⟨?_, ?_, ?_⟩
    · rw [reply_keyword_used, c3, ihw, c2, ihi]
      have harith : s.replyIndex + m + 1 = s.replyIndex + (m + 1) := by omega
      rw [harith]
    · rw [c2, ihi]
      omega
    · rw [c3, ihw]

/-- C7 witness: from the state right after the first install of a fresh
process (cursor 0, keywords `a, b`), the keyword selected after two
dispatches is `ks[(0 + 2) mod 2] = a`, so three consecutive dispatches use
`a, b, a`. -/
theorem cursor_rotation_witness :
    rotState0.scheduledKeywords ≠ []
    ∧ reply_keyword_used (reply_dispatches (fun _ => envErr) 2 rotState0)
        = rotState0.scheduledKeywords.getD
            ((rotState0.replyIndex + 2) % rotState0.scheduledKeywords.length) []
    ∧ (reply_dispatches (fun _ => envErr) 2 rotState0).replyIndex = rotState0.replyIndex + 2 :=
  ⟨by decide,
   (cursor_rotation (fun _ => envErr) rotState0 (by decide) 2).1,
   (cursor_rotation (fun _ => envErr) rotState0 (by decide) 2).2.1⟩

/-- C7 counterexample to the claim as stated: install keywords `a, b` on a
fresh process, dispatch one reply task, then install the same keywords
again - the install succeeds, yet the dispatch following it (the 0-th
after this install) selects keyword `b`, not `ks[0 mod 2] = a`, because
the reply cursor kept the value 1. -/
theorem cursor_rotation_counterexample :
    (schedule_bot ["a".toList, "b".toList] ["t".toList] goodTimes rotState1).1 = none
    ∧ rotState2.scheduledKeywords = ["a".toList, "b".toList]
    ∧ rotState2.replyIndex = 1
    ∧ reply_keyword_used rotState2 = "b".toList := by
  decide

/-- C3: every dispatch from a state with non-empty keyword and topic lists
(as any successfully installed schedule has) increments the completed-task
counter by exactly one; the dispatch that brings the counter to
`total_daily_tasks` leaves the scheduler flag false and the schedule-entry
list empty, and from that state every further stream of wall-clock ticks
leaves the state unchanged - no further dispatch ever occurs; and a
successful install starts with counter 0 and the scheduler running. -/
theorem quota_termination (env : PassEnv) (k : TaskKind) (s : BotState)
    (hk : s.scheduledKeywords ≠ []) (ht : s.scheduledTopics ≠ []) :
    (dispatch_task k env s).taskCounter = s.taskCounter + 1
    ∧ (s.taskCounter + 1 = total_daily_tasks →
        (dispatch_task k env s).schedulerRunning = false
        ∧ (dispatch_task k env s).jobs = []
        ∧ ∀ (ticks : Nat → List Char × PassEnv) (n : Nat),
            run_ticks ticks n (dispatch_task k env s) = dispatch_task k env s)
    ∧ (∀ (keywords topics times : List (List Char)) (s0 : BotState),
        (schedule_bot keywords topics times s0).1 = none →
        (schedule_bot keywords topics times s0).2.taskCounter = 0
        ∧ (schedule_bot keywords topics times s0).2.schedulerRunning = true) := by
  refine ⟨?_, ?_, ?_⟩
  · cases k with
    | reply => exact (scheduled_reply_task_core env s hk).1
    | post => exact (scheduled_post_task_core env s ht).1
  · intro hq
    have hstop : (dispatch_task k env s).schedulerRunning = false
        ∧ (dispatch_task k env s).jobs = [] := by
      cases k with
      | reply => exact (scheduled_reply_task_core env s hk).2.2.2.2 (by rw [hq])
      | post => exact (scheduled_post_task_core env s ht).2.2.2.2 (by rw [hq])
    exact ⟨hstop.1, hstop.2, fun ticks n => run_ticks_stopped ticks _ hstop.1 n⟩
  · intro keywords topics times s0 h
    obtain ⟨a, _, _, _, _, f, _⟩ := schedule_bot_success_fields keywords topics times s0 h
    exact ⟨a, f⟩

/-- C3 witness: from a running state whose counter is 5, the sixth
dispatch sets the counter to 6, stops the scheduler and clears the jobs. -/
theorem quota_termination_witness :
    quotaState.taskCounter + 1 = total_daily_tasks
    ∧ (dispatch_task TaskKind.reply envErr quotaState).taskCounter = quotaState.taskCounter + 1
    ∧ (dispatch_task TaskKind.reply envErr quotaState).schedulerRunning = false
    ∧ (dispatch_task TaskKind.reply envErr quotaState).jobs = [] :=
  ⟨by decide,
   (quota_termination envErr TaskKind.reply quotaState (by decide) (by decide)).1,
   ((quota_termination envErr TaskKind.reply quotaState (by decide) (by decide)).2.1
     (by decide)).1,
   ((quota_termination envErr TaskKind.reply quotaState (by decide) (by decide)).2.1
     (by decide)).2.1⟩
